import Mathlib

/-!
Verification development for the homebridge-philipstv-2020-ambilight plugin.

The TypeScript sources are shallowly embedded as pure Lean functions:
  * `StateCache` (cacheable.ts) becomes an explicit record threaded through
    each operation; timestamps are `Int` milliseconds passed in as `now`.
  * An `await` inside `getOrUpdate` splits the method into a synchronous
    first phase (`getOrUpdateTurn`, everything up to the supplier call) and a
    completion phase (`getOrUpdateFinish`, the `try`/`finally` body once the
    supplier settles).  This mirrors the single-threaded cooperative
    scheduler: code between suspension points runs atomically.
  * JavaScript truthiness (`x || y`, `if (value)`) is made explicit through a
    `truthy : T -> Bool` parameter: `fun b => b` for `boolean` slots and
    `fun _ => true` for object-valued slots.
  * Fallible device traffic is an oracle record `Device` of `Except` results;
    HTTP requests issued by an operation are collected in a `List Effect`.
-/

namespace PhilipsTV

/-- Slot state of `StateCache<T>` (cacheable.ts).  `state` is the optional
stored value, `lastCheck` the timestamp of the last refresh in epoch
milliseconds, `pendingUpdates` the in-flight counter and `cacheTime` the soft
TTL passed to the constructor (default 5000). -/
structure StateCache (T : Type) where
  state : Option T
  lastCheck : Int
  pendingUpdates : Int
  cacheTime : Int
  deriving Repr, DecidableEq

/-- Epoch milliseconds of the sentinel `new Date('2000-01-02')` used as the
initial, already expired `lastCheck`. -/
def expiredSentinel : Int := 946771200000

/-- A fresh `new StateCache(cacheTime)`. -/
def StateCache.mk0 (T : Type) (cacheTime : Int := 5000) : StateCache T :=
  { state := none, lastCheck := expiredSentinel, pendingUpdates := 0, cacheTime := cacheTime }

/-- `update(newState)`: store the value and set `lastCheck` to now. -/
def update {T : Type} (now : Int) (v : T) (c : StateCache T) : StateCache T :=
  { c with state := some v, lastCheck := now }

/-- `lockForUpdate()`: return the current counter and increment it. -/
def lockForUpdate {T : Type} (c : StateCache T) : Int × StateCache T :=
  (c.pendingUpdates, { c with pendingUpdates := c.pendingUpdates + 1 })

/-- `release()`: decrement the counter. -/
def release {T : Type} (c : StateCache T) : StateCache T :=
  { c with pendingUpdates := c.pendingUpdates - 1 }

/-- `invalidate()`: reset `lastCheck` to the expired sentinel, keeping the value. -/
def invalidate {T : Type} (c : StateCache T) : StateCache T :=
  { c with lastCheck := expiredSentinel }

/-- `bumpExpiration()`: set `lastCheck` to now without touching the value. -/
def bumpExpiration {T : Type} (now : Int) (c : StateCache T) : StateCache T :=
  { c with lastCheck := now }

/-- `getIfNotExpired()`: if `now - lastCheck < cacheTime` return
`this.state || undefined`, else `undefined`.  The `|| undefined` makes a
falsy stored value (such as `false`) read as absent. -/
def getIfNotExpired {T : Type} (truthy : T → Bool) (now : Int) (c : StateCache T) : Option T :=
  if now - c.lastCheck < c.cacheTime then
    match c.state with
    | some v => if truthy v then some v else none
    | none => none
  else
    none

/-- JavaScript `st || d` for an optional stored value. -/
def jsOr {T : Type} (truthy : T → Bool) (st : Option T) (d : T) : T :=
  match st with
  | some v => if truthy v then v else d
  | none => d

/-- Outcome of the synchronous prefix of one `getOrUpdate` call: either the
call returned without suspending, or it reached `await supplier()`. -/
inductive Turn (T : Type) where
  | returned : T → Turn T
  | startSupplier : Turn T
  deriving Repr, DecidableEq

/-- Synchronous prefix of `getOrUpdate(supplier, defaultValue)`: lock, check
freshness, short-circuit on a fresh value or a nonzero queue position, and
otherwise suspend at the supplier call (leaving the counter incremented). -/
def getOrUpdateTurn {T : Type} (truthy : T → Bool) (now : Int) (c : StateCache T)
    (defaultValue : T) : StateCache T × Turn T :=
  let locked := lockForUpdate c
  let placeInQueue := locked.1
  let c1 := locked.2
  match getIfNotExpired truthy now c1 with
  | some value => (release c1, .returned value)
  | none =>
    if placeInQueue > 0 then
      (release c1, .returned (jsOr truthy c1.state defaultValue))
    else
      (c1, .startSupplier)

/-- Completion of `getOrUpdate` once the supplier settles: on success
`update` then `return`, on failure rethrow; `finally { release() }` in both
cases. -/
def getOrUpdateFinish {T : Type} (now : Int) (c : StateCache T)
    (res : Except Unit T) : StateCache T × Except Unit T :=
  match res with
  | .ok v => (release (update now v c), .ok v)
  | .error e => (release c, .error e)

/-- A burst of `n` `getOrUpdate` calls on one slot inside a single
cooperative turn: no suspension point completes in between, so each call
runs its synchronous prefix back to back. -/
def burstTurn {T : Type} (truthy : T → Bool) (now : Int) (defaultValue : T) :
    StateCache T → Nat → StateCache T × List (Turn T)
  | c, 0 => (c, [])
  | c, n + 1 =>
    let (c1, r) := getOrUpdateTurn truthy now c defaultValue
    let (c2, rs) := burstTurn truthy now defaultValue c1 n
    (c2, r :: rs)

/-- Count of callers in a burst that reached the supplier call. -/
def countStart {T : Type} (rs : List (Turn T)) : Nat :=
  rs.countP fun r => match r with | .startSupplier => true | _ => false

/-- Abstract step relation for the in-flight counter: the first component is
`pendingUpdates`, the second the number of executions that have run
`lockForUpdate` but not yet their matching `release`.  `lock` is a
`lockForUpdate` (+1), `unlock` the matching `release` (-1), available only
while its execution is in flight. -/
inductive CounterStep : Int × Nat → Int × Nat → Prop where
  | lock (p : Int) (f : Nat) : CounterStep (p, f) (p + 1, f + 1)
  | unlock (p : Int) (f : Nat) : CounterStep (p, f + 1) (p - 1, f)

/-! ## HttpClient.call response classification (protocol.ts) -/

/-- The character `\x7b`. -/
def braceChar : Char := Char.ofNat 123

/-- The character `[`. -/
def bracketChar : Char := Char.ofNat 91

/-- `body.indexOf(brace) !== -1 || body.indexOf(bracket) !== -1`. -/
def looksLikeJson (body : String) : Bool :=
  body.data.contains braceChar || body.data.contains bracketChar

/-- Response classification of `HttpClient.call`.  `resp` is the transport
outcome: an error, or a body that may be absent (`undefined`) or a string.
A truthy (non-empty, present) body containing a brace or bracket is handed
to `JSON.parse` (modelled by `parse`, whose own failure rejects); any other
body resolves with the empty value `emptyVal`. -/
def httpCall {T : Type} (parse : String → Except Unit T) (emptyVal : T)
    (resp : Except Unit (Option String)) : Except Unit T :=
  match resp with
  | .error e => .error e
  | .ok body? =>
    match body? with
    | none => .ok emptyVal
    | some body =>
      if body ≠ "" ∧ looksLikeJson body then
        parse body
      else
        .ok emptyVal

/-! ## Device oracle and observable effects -/

/-- `{min, max, current, muted}` volume state (services.ts), with constructor
defaults `0 / 60 / 3 / false`. -/
structure VolumeState where
  min : Int := 0
  max : Int := 60
  current : Int := 3
  muted : Bool := false
  deriving Repr, DecidableEq

/-- `new VolumeState()`. -/
def defaultVolume : VolumeState := {}

/-- Ambilight color tuple, each channel 0-255. -/
structure AmbilightColor where
  hue : Int
  saturation : Int
  brightness : Int
  deriving Repr, DecidableEq

/-- `colorSettings` payload of an expert Ambilight style. -/
structure AmbilightColorSettings where
  color : AmbilightColor
  colorDelta : AmbilightColor := ⟨0, 0, 0⟩
  speed : Int := 0
  mode : Option String := none
  deriving Repr, DecidableEq

/-- The `OFF` sentinel style name. -/
def AMBILIGHT_OFF_STYLE_NAME : String := "OFF"

/-- The style name used for custom colors. -/
def AMBILIGHT_LOUNGE_LIGHT : String := "Lounge light"

/-- Ambilight current-configuration value object; the constructor default is
the off-style sentinel. -/
structure AmbilightCurrentStyle where
  styleName : String := AMBILIGHT_OFF_STYLE_NAME
  isExpert : Bool := false
  menuSetting : Option String := none
  stringValue : Option String := none
  algorithm : Option String := none
  colorSettings : Option AmbilightColorSettings := none
  deriving Repr, DecidableEq

/-- `ambilightOffStyle()` / `new AmbilightCurrentStyle()`. -/
def ambilightOffStyle : AmbilightCurrentStyle := {}

/-- `component` of the running activity: `{packageName, className}`. -/
structure TVApp where
  packageName : String
  className : String
  deriving Repr, DecidableEq

/-- `DEFAULT_APP`. -/
def DEFAULT_APP : TVApp :=
  { packageName := "org.droidtv.playtv", className := "org.droidtv.playtv.PlayTvActivity" }

/-- `launch.intent` of a configured input. -/
structure TVIntent where
  component : TVApp
  deriving Repr, DecidableEq

/-- `launch` description of a configured input. -/
structure TVActionLaunch where
  intent : TVIntent
  action : Option String := none
  deriving Repr, DecidableEq

/-- A configured TV input (`TVActivity`). -/
structure TVActivity where
  name : String
  launch : Option TVActionLaunch := none
  channel : Option String := none
  deriving Repr, DecidableEq

/-- Request bodies appearing in POST calls of the services. -/
inductive PostBody where
  | powerBody (s : String)
  | screenBody (s : String)
  | volumeBody (v : VolumeState)
  | ambiPowerBody (s : String)
  | ambiConfigBody (s : AmbilightCurrentStyle)
  | keyBody (s : String)
  deriving Repr, DecidableEq

/-- Externally observable actions of one operation, in program order:
HTTP reads and writes, the wake-on-LAN broadcast, `delay(ms)` waits,
`notifyDependants` scheduling, HomeKit characteristic pushes, and a read of
the publishing service inside `acknowledge`. -/
inductive Effect where
  | get (endpoint : String)
  | post (endpoint : String) (body : PostBody)
  | wol
  | wait (ms : Int)
  | notify
  | updateChar
  | publisherRead
  deriving Repr, DecidableEq

/-- `true` exactly for device HTTP traffic (reads and writes). -/
def isDeviceCall : Effect → Bool
  | .get _ => true
  | .post _ _ => true
  | _ => false

/-- `true` exactly for device writes (POST requests). -/
def isPost : Effect → Bool
  | .post _ _ => true
  | _ => false

/-- `true` exactly for writes of the ambient-light style configuration. -/
def isConfigPost : Effect → Bool
  | .post endpoint _ => endpoint == "ambilight/currentconfiguration"
  | _ => false

/-- Oracle for one round of device interaction: the parsed payload (or
transport/decode failure) each endpoint would produce, and the outcome of
each write.  Field values are fixed per operation run, matching a device
whose state does not change mid-call. -/
structure Device where
  powerstate : Except Unit (Option String)
  screenstate : Except Unit (Option String)
  volume : Except Unit VolumeState
  ambiPower : Except Unit (Option String)
  ambiConfig : Except Unit AmbilightCurrentStyle
  activity : Except Unit TVApp
  tvChannel : Except Unit (Option String)
  wolOk : Except Unit Unit
  postPower : Except Unit Unit
  postScreen : Except Unit Unit
  postVolume : Except Unit Unit
  postAmbiPower : Except Unit Unit
  postAmbiConfig : Except Unit Unit

/-- A device that answers every request successfully with the given values. -/
def Device.healthy (power screen ambiPower : Option String)
    (vol : VolumeState) (cfg : AmbilightCurrentStyle) (app : TVApp)
    (chan : Option String) : Device :=
  { powerstate := .ok power, screenstate := .ok screen, volume := .ok vol,
    ambiPower := .ok ambiPower, ambiConfig := .ok cfg, activity := .ok app,
    tvChannel := .ok chan, wolOk := .ok (), postPower := .ok (),
    postScreen := .ok (), postVolume := .ok (), postAmbiPower := .ok (),
    postAmbiConfig := .ok () }

/-- Truthiness of a `boolean` slot value. -/
def truthyBool : Bool → Bool := fun b => b

/-- Truthiness of an object-valued slot: objects are always truthy. -/
def truthyObj {T : Type} : T → Bool := fun _ => true

/-! ## Endpoint names -/

/-- `powerstate` endpoint. -/
def POWER_API : String := "powerstate"

/-- `screenstate` endpoint. -/
def SCREEN_API : String := "screenstate"

/-- `audio/volume` endpoint. -/
def VOLUME_API : String := "audio/volume"

/-- `ambilight/power` endpoint. -/
def AMBILIGHT_POWER_API : String := "ambilight/power"

/-- `ambilight/currentconfiguration` endpoint. -/
def AMBILIGHT_CONFIG_API : String := "ambilight/currentconfiguration"

/-! ## WOLCaster (protocol.ts) -/

/-- Wake configuration: the optional MAC address and the warm-up delay
(default 4000 ms). -/
structure WolConfig where
  wolMac : Option String := none
  wakeUpDelay : Int := 4000

/-- `WOLCaster.wake()`: without a configured MAC resolve `false`; otherwise
broadcast and resolve `true`, propagating a broadcast failure. -/
def wake (cfg : WolConfig) (dev : Device) : Except Unit Bool × List Effect :=
  match cfg.wolMac with
  | none => (.ok false, [])
  | some _ =>
    match dev.wolOk with
    | .ok _ => (.ok true, [.wol])
    | .error e => (.error e, [.wol])

/-- `WOLCaster.wakeAndWarmUp()`: wake, then wait `wake_up_delay` only if the
wake signal was sent. -/
def wakeAndWarmUp (cfg : WolConfig) (dev : Device) : Except Unit Bool × List Effect :=
  match wake cfg dev with
  | (.ok true, es) => (.ok true, es ++ [.wait cfg.wakeUpDelay])
  | (.ok false, es) => (.ok false, es)
  | (.error e, es) => (.error e, es)

/-- `true` for a successful result. -/
def isOkE {T : Type} : Except Unit T → Bool
  | .ok _ => true
  | .error _ => false

/-- One `getOrUpdate` call run to completion in isolation: the synchronous
prefix, then — only when the supplier was reached — the completion phase on
the supplier outcome `supplied`.  The boolean records whether the supplier
(and hence its device fetch) actually ran. -/
def getOrUpdateRun {T : Type} (truthy : T → Bool) (now : Int) (c : StateCache T)
    (defaultValue : T) (supplied : Except Unit T) :
    StateCache T × Except Unit T × Bool :=
  match getOrUpdateTurn truthy now c defaultValue with
  | (c1, .returned v) => (c1, .ok v, false)
  | (c1, .startSupplier) =>
    match getOrUpdateFinish now c1 supplied with
    | (c2, r) => (c2, r, true)

/-! ## TVService power state (services.ts) -/

/-- Value resolved by the `getOn` supplier
`fetchAPI(POWER_API).then(resp.powerstate === 'On').catch(() => false)`:
a transport or decode failure is converted to `false` inside the supplier,
so it always resolves. -/
def tvGetOnSupplier (dev : Device) : Bool :=
  match dev.powerstate with
  | .ok p => p == some "On"
  | .error _ => false

/-- `TVService.getOn()`: `onState.getOrUpdate(supplier, false)`. -/
def tvGetOn (now : Int) (dev : Device) (c : StateCache Bool) :
    StateCache Bool × Except Unit Bool × List Effect :=
  match getOrUpdateRun truthyBool now c false (.ok (tvGetOnSupplier dev)) with
  | (c2, r, fetched) => (c2, r, if fetched then [.get POWER_API] else [])

/-- `TVService.setOn(newState)`: read the current state, then POST
`Standby`/`On` only on an actual transition; the power-on transition wakes
the device first and waits 100 ms after the POST before re-asserting the
cache and notifying dependants. -/
def tvSetOn (now : Int) (wol : WolConfig) (dev : Device) (c : StateCache Bool)
    (newState : Bool) : StateCache Bool × Except Unit Unit × List Effect :=
  match tvGetOn now dev c with
  | (c1, .error e, e1) => (c1, .error e, e1)
  | (c1, .ok isOn, e1) =>
    if isOn && !newState then
      let c2 := update now false c1
      match dev.postPower with
      | .ok _ =>
        (update now false c2, .ok (), e1 ++ [.post POWER_API (.powerBody "Standby"), .notify])
      | .error e => (c2, .error e, e1 ++ [.post POWER_API (.powerBody "Standby")])
    else if !isOn && newState then
      let c2 := update now true c1
      match wakeAndWarmUp wol dev with
      | (.error e, ew) => (c2, .error e, e1 ++ ew)
      | (.ok _, ew) =>
        match dev.postPower with
        | .ok _ =>
          (update now true c2, .ok (),
            e1 ++ ew ++ [.post POWER_API (.powerBody "On"), .wait 100, .notify])
        | .error e => (c2, .error e, e1 ++ ew ++ [.post POWER_API (.powerBody "On")])
    else
      (c1, .ok (), e1)

/-! ## TVScreenService (services.ts) -/

/-- Value resolved by the screen `getOn` supplier
`fetchAPI(SCREEN_API).then(resp.screenstate === 'On').catch(() => false)`. -/
def screenGetOnSupplier (dev : Device) : Bool :=
  match dev.screenstate with
  | .ok p => p == some "On"
  | .error _ => false

/-- `TVScreenService.getOn()`. -/
def screenGetOn (now : Int) (dev : Device) (c : StateCache Bool) :
    StateCache Bool × Except Unit Bool × List Effect :=
  match getOrUpdateRun truthyBool now c false (.ok (screenGetOnSupplier dev)) with
  | (c2, r, fetched) => (c2, r, if fetched then [.get SCREEN_API] else [])

/-- `TVScreenService.setOn(newState)`: POST the screen state only when it
differs from the current one, then notify dependants. -/
def screenSetOn (now : Int) (dev : Device) (c : StateCache Bool)
    (newState : Bool) : StateCache Bool × Except Unit Unit × List Effect :=
  match screenGetOn now dev c with
  | (c1, .error e, e1) => (c1, .error e, e1)
  | (c1, .ok isOn, e1) =>
    if isOn != newState then
      let c2 := update now newState c1
      let body : PostBody := .screenBody (if newState then "On" else "Off")
      match dev.postScreen with
      | .ok _ => (update now newState c2, .ok (), e1 ++ [.post SCREEN_API body, .notify])
      | .error e => (c2, .error e, e1 ++ [.post SCREEN_API body])
    else
      (c1, .ok (), e1)

/-! ## TVSpeakerService (services.ts) -/

/-- `calculateCurrentVolume`: `floor((current - min) / maxRange * 100)` with
`maxRange = max - min` clamped to at least 1. -/
def calculateCurrentVolume (v : VolumeState) : Int :=
  let maxRange : Int := if v.max - v.min ≤ 0 then 1 else v.max - v.min
  ⌊(((v.current - v.min : Int) : ℚ) / (maxRange : ℚ)) * 100⌋

/-- `TVSpeakerService.getVolumeState()`: `volumeState.getOrUpdate(() =>
fetchAPI(VOLUME_API), new VolumeState())`, pushing the fetched values to the
speaker characteristics on success.  The supplier has no `catch`, so a
failed fetch rejects. -/
def speakerGetVolumeState (now : Int) (dev : Device) (c : StateCache VolumeState) :
    StateCache VolumeState × Except Unit VolumeState × List Effect :=
  match getOrUpdateRun truthyObj now c defaultVolume dev.volume with
  | (c2, .ok v, fetched) =>
    (c2, .ok v, (if fetched then [.get VOLUME_API] else []) ++ [.updateChar])
  | (c2, .error e, fetched) => (c2, .error e, if fetched then [.get VOLUME_API] else [])

/-- `TVSpeakerService.getMute()`: `volumeState.getOrUpdate(() =>
this.getVolumeState(), new VolumeState()).then(data.muted)`.  The supplier
re-enters `getOrUpdate` on the same slot while the outer call holds the
counter. -/
def speakerGetMute (now : Int) (dev : Device) (c : StateCache VolumeState) :
    StateCache VolumeState × Except Unit Bool × List Effect :=
  match getOrUpdateTurn truthyObj now c defaultVolume with
  | (c1, .returned v) => (c1, .ok v.muted, [])
  | (c1, .startSupplier) =>
    match speakerGetVolumeState now dev c1 with
    | (c2, r, es) =>
      match getOrUpdateFinish now c2 r with
      | (c3, .ok v) => (c3, .ok v.muted, es)
      | (c3, .error e) => (c3, .error e, es)

/-- `TVSpeakerService.getVolume()`: same shape as `getMute`, mapped through
`calculateCurrentVolume`. -/
def speakerGetVolume (now : Int) (dev : Device) (c : StateCache VolumeState) :
    StateCache VolumeState × Except Unit Int × List Effect :=
  match getOrUpdateTurn truthyObj now c defaultVolume with
  | (c1, .returned v) => (c1, .ok (calculateCurrentVolume v), [])
  | (c1, .startSupplier) =>
    match speakerGetVolumeState now dev c1 with
    | (c2, r, es) =>
      match getOrUpdateFinish now c2 r with
      | (c3, .ok v) => (c3, .ok (calculateCurrentVolume v), es)
      | (c3, .error e) => (c3, .error e, es)

/-! ## TVService input source (services.ts) -/

/-- `TVService.getChannel()`: fetch `activities/tv` and extract
`data.channel?.preset ?? null`, with any failure caught to `null`. -/
def tvGetChannel (dev : Device) : Option String × List Effect :=
  (match dev.tvChannel with
    | .ok p => p
    | .error _ => none, [.get "activities/tv"])

/-- `TVService.getRunningApp()`: `activity.getOrUpdate(() =>
fetchAPI('activities/current').then(resp.component), DEFAULT_APP)`.  The
supplier has no `catch`, so a failed fetch rejects. -/
def tvGetRunningApp (now : Int) (dev : Device) (c : StateCache TVApp) :
    StateCache TVApp × Except Unit TVApp × List Effect :=
  match getOrUpdateRun truthyObj now c DEFAULT_APP dev.activity with
  | (c2, r, fetched) => (c2, r, if fetched then [.get "activities/current"] else [])

/-- Matching test for one configured input against the running app and (when
known) the current channel, as in the loop of `getActiveIdentifier`. -/
def matchesInput (entry : TVActivity) (app : TVApp) (chan : Option String) : Bool :=
  match chan with
  | some c => entry.channel == some c
  | none =>
    match entry.launch with
    | some l =>
      l.intent.component.packageName == app.packageName
        && l.intent.component.className == app.className
    | none => false

/-- 1-based index of the first matching input, `0` when none matches. -/
def findInputIndex (inputs : List TVActivity) (app : TVApp) (chan : Option String) : Int :=
  match inputs.findIdx? (fun entry => matchesInput entry app chan) with
  | some i => (i : Int) + 1
  | none => 0

/-- `TVService.getActiveIdentifier()`: return `0` without inputs or when the
cached power state reads exactly `false` (the `isOn === null` guard never
fires because `getIfNotExpired` yields `undefined`, not `null`); otherwise
resolve the running app — propagating its failure — look up the channel for
the two TV-player packages, and find the matching input. -/
def tvGetActiveIdentifier (now : Int) (dev : Device) (inputs : Option (List TVActivity))
    (onState : StateCache Bool) (activity : StateCache TVApp) :
    StateCache TVApp × Except Unit Int × List Effect :=
  match inputs with
  | none => (activity, .ok 0, [])
  | some ins =>
    let isOn := getIfNotExpired truthyBool now onState
    if isOn = some false then
      (activity, .ok 0, [])
    else
      match tvGetRunningApp now dev activity with
      | (a1, .error e, e1) => (a1, .error e, e1)
      | (a1, .ok currentApp, e1) =>
        let (currentChannel, e2) :=
          if currentApp.packageName == "org.droidtv.channels"
              || currentApp.packageName == "org.droidtv.playtv" then
            tvGetChannel dev
          else
            (none, [])
        (a1, .ok (findInputIndex ins currentApp currentChannel), e1 ++ e2)

/-! ## TVAmbilightService (services.ts) -/

/-- Configuration of the Ambilight feature: per-screen-context default
styles and whether they always win over the remembered style. -/
structure AmbilightConfig where
  defaultOnStyle : Option AmbilightCurrentStyle := none
  alwaysUseDefaultOn : Bool := false
  defaultOffStyle : Option AmbilightCurrentStyle := none
  alwaysUseDefaultOff : Bool := false

/-- Mutable fields of `TVAmbilightService`. -/
structure AmbilightState where
  onState : StateCache Bool
  style : StateCache AmbilightCurrentStyle
  isTVOn : Bool
  isScreenOn : Bool
  lastStyleOn : AmbilightCurrentStyle
  lastStyleOff : AmbilightCurrentStyle
  color : AmbilightColor
  pendingColorUpdates : Int
  deriving Repr, DecidableEq

/-- Service state right after construction without configured defaults:
both caches empty (style TTL 100 ms), both remembered styles the off-style,
and the initial color `(0, 0, 255)`. -/
def AmbilightState.initial : AmbilightState :=
  { onState := StateCache.mk0 Bool, style := StateCache.mk0 AmbilightCurrentStyle 100,
    isTVOn := false, isScreenOn := false, lastStyleOn := ambilightOffStyle,
    lastStyleOff := ambilightOffStyle, color := ⟨0, 0, 255⟩, pendingColorUpdates := 0 }

/-- `updateLastStyle(style)`: remember the style for the current screen
context. -/
def updateLastStyle (a : AmbilightState) (style : AmbilightCurrentStyle) : AmbilightState :=
  if a.isScreenOn then { a with lastStyleOn := style } else { a with lastStyleOff := style }

/-- `getLastStyle()`: the configured default for the current screen context
when it is forced, otherwise the remembered style. -/
def getLastStyle (cfg : AmbilightConfig) (a : AmbilightState) : AmbilightCurrentStyle :=
  if a.isScreenOn then
    match cfg.alwaysUseDefaultOn, cfg.defaultOnStyle with
    | true, some d => d
    | _, _ => a.lastStyleOn
  else
    match cfg.alwaysUseDefaultOff, cfg.defaultOffStyle with
    | true, some d => d
    | _, _ => a.lastStyleOff

/-- Value resolved by the style supplier: the fetched configuration, or the
off-style when the fetch fails ("assuming the TV is OFF"). -/
def ambilightStyleSupplier (dev : Device) : AmbilightCurrentStyle :=
  match dev.ambiConfig with
  | .ok s => s
  | .error _ => ambilightOffStyle

/-- `TVAmbilightService.getCurrentStyle()`: `style.getOrUpdate(supplier,
ambilightOffStyle())` where the supplier catches a failed fetch of the
current configuration and resolves the off-style; it therefore always
resolves, and the resolved value is stored via `update`. -/
def ambilightGetCurrentStyle (now : Int) (dev : Device)
    (st : StateCache AmbilightCurrentStyle) :
    StateCache AmbilightCurrentStyle × Except Unit AmbilightCurrentStyle × List Effect :=
  match getOrUpdateRun truthyObj now st ambilightOffStyle (.ok (ambilightStyleSupplier dev)) with
  | (c2, r, fetched) => (c2, r, if fetched then [.get AMBILIGHT_CONFIG_API] else [])

/-- `TVAmbilightService.setCurrentStyle(style)`: optimistically `update` the
style cache, then POST the configuration. -/
def ambilightSetCurrentStyle (now : Int) (dev : Device)
    (st : StateCache AmbilightCurrentStyle) (style : AmbilightCurrentStyle) :
    StateCache AmbilightCurrentStyle × Except Unit Unit × List Effect :=
  let st1 := update now style st
  match dev.postAmbiConfig with
  | .ok _ => (st1, .ok (), [.post AMBILIGHT_CONFIG_API (.ambiConfigBody style)])
  | .error e => (st1, .error e, [.post AMBILIGHT_CONFIG_API (.ambiConfigBody style)])

/-- Value resolved by the power-flag supplier of `getOn`:
`power === 'On' || isActuallyOn` on success, `false` when the power fetch
fails (the `catch` does not consult `isActuallyOn`). -/
def ambilightPowerSupplier (dev : Device) (isActuallyOn : Bool) : Bool :=
  match dev.ambiPower with
  | .ok p => p == some "On" || isActuallyOn
  | .error _ => false

/-- Power-flag half of `TVAmbilightService.getOn()` on the state left by the
style read. -/
def ambilightGetOnPower (now : Int) (dev : Device) (isActuallyOn : Bool)
    (a2 : AmbilightState) (e1 : List Effect) :
    AmbilightState × Except Unit Bool × List Effect :=
  match getOrUpdateRun truthyBool now a2.onState false
      (.ok (ambilightPowerSupplier dev isActuallyOn)) with
  | (c2, r, fetched) =>
    ({ a2 with onState := c2 }, r,
      e1 ++ if fetched then [.get AMBILIGHT_POWER_API] else [])

/-- `TVAmbilightService.getOn()`: read the current style, treat a non-off
style as "actually on" (remembering it), and reconcile with the power
flag. -/
def ambilightGetOn (now : Int) (dev : Device) (a : AmbilightState) :
    AmbilightState × Except Unit Bool × List Effect :=
  match ambilightGetCurrentStyle now dev a.style with
  | (st1, .error e, e1) => ({ a with style := st1 }, .error e, e1)
  | (st1, .ok currentStyle, e1) =>
    let isActuallyOn := currentStyle.styleName != AMBILIGHT_OFF_STYLE_NAME
    let a1 := { a with style := st1 }
    let a2 := if isActuallyOn then updateLastStyle a1 currentStyle else a1
    ambilightGetOnPower now dev isActuallyOn a2 e1

/-- Writing half of `TVAmbilightService.setOn(newState)`, after the power
and style reads: optimistically store the desired flag, then — without any
equality short-circuit — write the restored style and `power: On` (waking
the device first when the TV is off), or `power: Off` followed by the
off-style. -/
def ambilightSetOnWrite (now : Int) (cfg : AmbilightConfig) (wol : WolConfig)
    (dev : Device) (a2 : AmbilightState) (isOn : Bool)
    (currentStyle : AmbilightCurrentStyle) (newState : Bool) (e12 : List Effect) :
    AmbilightState × Except Unit Unit × List Effect :=
  let isActuallyOn := !isOn && (currentStyle.styleName != AMBILIGHT_OFF_STYLE_NAME)
  let a3 := { a2 with onState := update now newState a2.onState }
  if newState then
    match (if !a3.isTVOn then wakeAndWarmUp wol dev else (.ok true, [])) with
    | (.error e, ew) => (a3, .error e, e12 ++ ew)
    | (.ok _, ew) =>
      match ambilightSetCurrentStyle now dev a3.style (getLastStyle cfg a3) with
      | (st4, .error e, e3) => ({ a3 with style := st4 }, .error e, e12 ++ ew ++ e3)
      | (st4, .ok _, e3) =>
        let a4 := { a3 with style := st4 }
        match dev.postAmbiPower with
        | .error e =>
          (a4, .error e, e12 ++ ew ++ e3 ++ [.post AMBILIGHT_POWER_API (.ambiPowerBody "On")])
        | .ok _ =>
          let a5 := { a4 with onState := update now newState a4.onState }
          (a5, .ok (),
            e12 ++ ew ++ e3 ++ [.post AMBILIGHT_POWER_API (.ambiPowerBody "On"), .updateChar])
  else
    let a4 := if isActuallyOn then updateLastStyle a3 currentStyle else a3
    match dev.postAmbiPower with
    | .error e => (a4, .error e, e12 ++ [.post AMBILIGHT_POWER_API (.ambiPowerBody "Off")])
    | .ok _ =>
      match ambilightSetCurrentStyle now dev a4.style ambilightOffStyle with
      | (st5, .error e, e3) =>
        ({ a4 with style := st5 }, .error e,
          e12 ++ [.post AMBILIGHT_POWER_API (.ambiPowerBody "Off")] ++ e3)
      | (st5, .ok _, e3) =>
        let a5 := { a4 with style := st5 }
        let a6 := { a5 with onState := update now newState a5.onState }
        (a6, .ok (),
          e12 ++ [.post AMBILIGHT_POWER_API (.ambiPowerBody "Off")] ++ e3 ++ [.updateChar])

/-- `TVAmbilightService.setOn(newState)`: the power and style reads followed
by the write phase. -/
def ambilightSetOn (now : Int) (cfg : AmbilightConfig) (wol : WolConfig)
    (dev : Device) (a : AmbilightState) (newState : Bool) :
    AmbilightState × Except Unit Unit × List Effect :=
  match ambilightGetOn now dev a with
  | (a1, .error e, e1) => (a1, .error e, e1)
  | (a1, .ok isOn, e1) =>
    match ambilightGetCurrentStyle now dev a1.style with
    | (st2, .error e, e2) => ({ a1 with style := st2 }, .error e, e1 ++ e2)
    | (st2, .ok currentStyle, e2) =>
      ambilightSetOnWrite now cfg wol dev { a1 with style := st2 } isOn currentStyle
        newState (e1 ++ e2)

/-- `TVAmbilightService.refreshData()`: read the on-state and push it (and
the color channels) to the HomeKit characteristics; `getOn` cannot reject,
and the surrounding `try`/`catch` would swallow a failure anyway. -/
def ambilightRefreshData (now : Int) (dev : Device) (a : AmbilightState) :
    AmbilightState × List Effect :=
  match ambilightGetOn now dev a with
  | (a1, _, es) => (a1, es ++ [.updateChar])

/-- Which service published the update an `acknowledge` reacts to, together
with the value its `getOn()` resolves to when the dependant queries it
(`instanceof` dispatch in the source). -/
inductive PublisherKind where
  | tvService (tvIsOn : Bool)
  | screenService (screenIsOn : Bool)
  | otherService
  deriving Repr, DecidableEq

/-- `TVAmbilightService.acknowledge(updatedService)`:
for a screen publisher, record its on-flag and bail out early when both
remembered flags are off; otherwise invalidate both caches; for a TV
publisher, copy its on-flag into both remembered flags and, when the TV is
off, pin both caches to off without touching the (lagging) Ambilight API;
in every remaining case fall through to `refreshData`. -/
def ambilightAcknowledge (now : Int) (dev : Device) (pub : PublisherKind)
    (a : AmbilightState) : AmbilightState × List Effect :=
  let screenEarly :=
    match pub with
    | .screenService sOn =>
      let a1 := { a with isScreenOn := sOn }
      if ¬a1.isTVOn ∧ ¬a1.isScreenOn then some (a1, ([.publisherRead] : List Effect))
      else none
    | _ => none
  match screenEarly with
  | some r => r
  | none =>
    let a1 :=
      match pub with
      | .screenService sOn => { a with isScreenOn := sOn }
      | _ => a
    let e0 : List Effect :=
      match pub with
      | .screenService _ => [.publisherRead]
      | _ => []
    let a2 := { a1 with onState := invalidate a1.onState, style := invalidate a1.style }
    match pub with
    | .tvService tvOn =>
      let a3 := { a2 with isTVOn := tvOn, isScreenOn := tvOn }
      if ¬tvOn then
        let a4 := { a3 with onState := update now false a3.onState,
                            style := update now ambilightOffStyle a3.style }
        (a4, e0 ++ [.publisherRead, .updateChar])
      else
        let (a4, es) := ambilightRefreshData now dev a3
        (a4, e0 ++ [.publisherRead] ++ es)
    | _ =>
      let (a3, es) := ambilightRefreshData now dev a2
      (a3, e0 ++ es)

/-! ## Ambilight color debounce (services.ts) -/

/-- `Math.round` on a non-negative rational. -/
def jsRound (q : ℚ) : Int := ⌊q + 1 / 2⌋

/-- `createCustomColor(color)`: an expert `Lounge light` style in
`MANUAL_HUE` mode carrying the color. -/
def createCustomColor (color : AmbilightColor) : AmbilightCurrentStyle :=
  { styleName := AMBILIGHT_LOUNGE_LIGHT, isExpert := true,
    algorithm := some "MANUAL_HUE",
    colorSettings := some { color := color } }

/-- Synchronous part of one `setHue(newHue)` call: scale the 0-360 hue to
0-255, write it into the shared color tuple, then (inside
`setCurrentColor`) pre-increment `pendingColorUpdates`, capturing the new
value before suspending at `delay(pendingUpdates * 10)`. -/
def setHueArrive (a : AmbilightState) (newHue : ℚ) : AmbilightState × Int :=
  let actualHue := jsRound (newHue / 360 * 255)
  let a1 := { a with color := { a.color with hue := actualHue } }
  let captured := a1.pendingColorUpdates + 1
  ({ a1 with pendingColorUpdates := captured }, captured)

/-- All hue-set calls of one burst arriving before any of their delays
elapse ("within the debounce window"); returns the captured counter value of
each call in arrival order. -/
def hueBurstArrive (a : AmbilightState) : List ℚ → AmbilightState × List Int
  | [] => (a, [])
  | h :: hs =>
    let (a1, captured) := setHueArrive a h
    let (a2, caps) := hueBurstArrive a1 hs
    (a2, captured :: caps)

/-- Resumption of one `setCurrentColor` call after its delay: skip (resolve)
when the captured counter value is at most 2; otherwise reset the counter,
build the custom style from the shared color, remember it, POST it via
`setCurrentStyle`, and finish with `await this.setOn(color.brightness > 0)`
— the full power-toggle, which issues its own style and power writes.  A
rejected style write skips the `setOn`. -/
def setCurrentColorWake (now : Int) (cfg : AmbilightConfig) (wol : WolConfig)
    (dev : Device) (a : AmbilightState) (captured : Int) :
    AmbilightState × Except Unit Unit × List Effect :=
  if captured ≤ 2 then (a, .ok (), [])
  else
    let a1 := { a with pendingColorUpdates := 0 }
    let style := createCustomColor a1.color
    let a2 := updateLastStyle a1 style
    match ambilightSetCurrentStyle now dev a2.style style with
    | (st3, .ok _, es) =>
      match ambilightSetOn now cfg wol dev { a2 with style := st3 }
          (decide (a2.color.brightness > 0)) with
      | (a4, r, es2) => (a4, r, es ++ es2)
    | (st3, .error e, es) => ({ a2 with style := st3 }, .error e, es)

/-- The delayed resumptions of a burst, in order of their delays (each call
waits `captured * 10` ms, so resumptions fire in arrival order); `setHue`
never awaits `setCurrentColor`, so a rejected flush does not stop the later
ones. -/
def hueBurstWakes (now : Int) (cfg : AmbilightConfig) (wol : WolConfig)
    (dev : Device) : AmbilightState → List Int → AmbilightState × List Effect
  | a, [] => (a, [])
  | a, cap :: caps =>
    match setCurrentColorWake now cfg wol dev a cap with
    | (a1, _, es1) =>
      let (a2, es2) := hueBurstWakes now cfg wol dev a1 caps
      (a2, es1 ++ es2)

/-- A rapid burst of hue-set calls: all arrivals inside the debounce window,
then the delayed flush decisions one by one. -/
def hueBurst (now : Int) (cfg : AmbilightConfig) (wol : WolConfig)
    (dev : Device) (a : AmbilightState) (hues : List ℚ) :
    AmbilightState × List Effect :=
  let (a1, caps) := hueBurstArrive a hues
  hueBurstWakes now cfg wol dev a1 caps

/-- One tick of the 10-second `setInterval(flushColorSetting)`: bail out
while no color update is pending; otherwise add 2 to the counter and run
`setCurrentColor(color)` (whose own pre-increment makes the captured value
exceed the threshold, forcing a commit), resetting the counter afterwards;
the surrounding `try`/`catch` swallows a failure. -/
def flushColorSetting (now : Int) (cfg : AmbilightConfig) (wol : WolConfig)
    (dev : Device) (a : AmbilightState) : AmbilightState × List Effect :=
  if a.pendingColorUpdates ≤ 0 then (a, [])
  else
    let bumped := a.pendingColorUpdates + 2
    let captured := bumped + 1
    let a2 := { a with pendingColorUpdates := captured }
    match setCurrentColorWake now cfg wol dev a2 captured with
    | (a3, .ok _, es) => ({ a3 with pendingColorUpdates := 0 }, es)
    | (a3, .error _, es) => (a3, es)

/-! ## PlatformService dependant notification (services.ts) -/

/-- Body of the `setTimeout` callback in `notifyDependants()`: iterate the
registered dependants, invoking each one's `acknowledge(this)`.  Every
`acknowledge` override is an `async` method, so invoking it returns a
promise and never throws synchronously — a rejection escapes the
surrounding `try`/`catch` without aborting the loop. -/
def notifyLoop {D : Type} (deps : List D) (ack : D → Except Unit Unit) :
    List (D × Except Unit Unit) :=
  match deps with
  | [] => []
  | d :: rest => (d, ack d) :: notifyLoop rest ack

/-- A device every request to which fails with a transport error. -/
def Device.unreachable : Device :=
  { powerstate := .error (), screenstate := .error (), volume := .error (),
    ambiPower := .error (), ambiConfig := .error (), activity := .error (),
    tvChannel := .error (), wolOk := .error (), postPower := .error (),
    postScreen := .error (), postVolume := .error (), postAmbiPower := .error (),
    postAmbiConfig := .error () }

/-- A non-off style used as a concrete cached value in counterexamples. -/
def loungeExample : AmbilightCurrentStyle :=
  { styleName := AMBILIGHT_LOUNGE_LIGHT, isExpert := true }

/-! ## Helper lemmas about the cache slot -/

theorem release_lock {T : Type} (c : StateCache T) :
    release { c with pendingUpdates := c.pendingUpdates + 1 } = c := by
  cases c with
  | mk s l p t =>
    simp only [release]
    congr 1
    omega

theorem getIfNotExpired_pending {T : Type} (truthy : T → Bool) (now : Int)
    (c : StateCache T) (x : Int) :
    getIfNotExpired truthy now { c with pendingUpdates := x } =
      getIfNotExpired truthy now c := rfl

theorem turn_fresh {T : Type} {truthy : T → Bool} {now : Int} {c : StateCache T}
    {d v : T} (h : getIfNotExpired truthy now c = some v) :
    getOrUpdateTurn truthy now c d = (c, .returned v) := by
  unfold getOrUpdateTurn lockForUpdate
  dsimp only
  rw [show getIfNotExpired truthy now { c with pendingUpdates := c.pendingUpdates + 1 }
      = some v from h]
  simp [release_lock]

theorem turn_queued {T : Type} {truthy : T → Bool} {now : Int} {c : StateCache T}
    {d : T} (h : getIfNotExpired truthy now c = none) (hp : 0 < c.pendingUpdates) :
    getOrUpdateTurn truthy now c d = (c, .returned (jsOr truthy c.state d)) := by
  unfold getOrUpdateTurn lockForUpdate
  dsimp only
  rw [show getIfNotExpired truthy now { c with pendingUpdates := c.pendingUpdates + 1 }
      = none from h]
  simp [hp, release_lock]

theorem turn_first {T : Type} {truthy : T → Bool} {now : Int} {c : StateCache T}
    {d : T} (h : getIfNotExpired truthy now c = none) (hp : ¬0 < c.pendingUpdates) :
    getOrUpdateTurn truthy now c d =
      ({ c with pendingUpdates := c.pendingUpdates + 1 }, .startSupplier) := by
  unfold getOrUpdateTurn lockForUpdate
  dsimp only
  rw [show getIfNotExpired truthy now { c with pendingUpdates := c.pendingUpdates + 1 }
      = none from h]
  simp [hp]

/-- Inversion of the supplier branch: reaching `await supplier()` forces an
expired (or falsy) cache, a non-positive entry counter, and leaves the slot
locked. -/
theorem turn_inv {T : Type} {truthy : T → Bool} {now : Int} {c : StateCache T}
    {d : T} (h : (getOrUpdateTurn truthy now c d).2 = .startSupplier) :
    getIfNotExpired truthy now c = none ∧ ¬0 < c.pendingUpdates ∧
      (getOrUpdateTurn truthy now c d).1 =
        { c with pendingUpdates := c.pendingUpdates + 1 } := by
  rcases hfr : getIfNotExpired truthy now c with _ | v
  · by_cases hp : 0 < c.pendingUpdates
    · rw [turn_queued hfr hp] at h
      cases h
    · exact ⟨rfl, hp, by rw [turn_first hfr hp]⟩
  · rw [turn_fresh hfr] at h
    cases h

theorem burst_fresh {T : Type} {truthy : T → Bool} {now : Int} {c : StateCache T}
    {d v : T} (h : getIfNotExpired truthy now c = some v) (n : Nat) :
    burstTurn truthy now d c n = (c, List.replicate n (.returned v)) := by
  induction n with
  | zero => simp [burstTurn]
  | succ k ih => simp [burstTurn, turn_fresh h, ih, List.replicate_succ]

theorem burst_queued {T : Type} {truthy : T → Bool} {now : Int} {c : StateCache T}
    {d : T} (h : getIfNotExpired truthy now c = none) (hp : 0 < c.pendingUpdates)
    (n : Nat) :
    burstTurn truthy now d c n = (c, List.replicate n (.returned (jsOr truthy c.state d))) := by
  induction n with
  | zero => simp [burstTurn]
  | succ k ih => simp [burstTurn, turn_queued h hp, ih, List.replicate_succ]

theorem burst_first {T : Type} {truthy : T → Bool} {now : Int} {c : StateCache T}
    {d : T} (h : getIfNotExpired truthy now c = none) (hp : c.pendingUpdates = 0)
    (n : Nat) :
    burstTurn truthy now d c (n + 1) =
      ({ c with pendingUpdates := c.pendingUpdates + 1 },
        .startSupplier :: List.replicate n (.returned (jsOr truthy c.state d))) := by
  have hfirst := turn_first (d := d) h (by omega)
  have hq : burstTurn truthy now d { c with pendingUpdates := c.pendingUpdates + 1 } n =
      ({ c with pendingUpdates := c.pendingUpdates + 1 },
        List.replicate n (.returned (jsOr truthy c.state d))) :=
    burst_queued (getIfNotExpired_pending truthy now c _ ▸ h) (by simp; omega) n
  simp [burstTurn, hfirst, hq]

theorem countStart_replicate {T : Type} (n : Nat) (v : T) :
    countStart (List.replicate n (Turn.returned v)) = 0 := by
  induction n with
  | zero => rfl
  | succ k ih => simp [countStart, List.replicate_succ]

/-- Counter invariant: along any interleaving of lock/release pairs starting
from an idle slot, `pendingUpdates` equals the number of executions
currently holding the lock. -/
theorem counter_invariant (s : Int × Nat)
    (h : Relation.ReflTransGen CounterStep (0, 0) s) : s.1 = (s.2 : Int) := by
  induction h with
  | refl => rfl
  | tail _ step ih =>
    cases step with
    | lock p f =>
      simp only at ih ⊢
      omega
    | unlock p f =>
      simp only at ih ⊢
      omega

/-! ## Claims C1 - C3: the expiring cache -/

/-- Claim C1 (amended): within one cooperative turn, a burst of `getOrUpdate`
calls on one slot (whose counter is non-negative) invokes the supplier at
most once; when the cache serves a fresh truthy value every caller returns
it; when it cannot and a refresh is already pending every caller immediately
gets the stored value if truthy, else the fallback; and from an idle slot
exactly the first caller (queue position 0) starts the supplier while all
later callers return immediately with stored-if-truthy-else-fallback. -/
theorem claimC1_burst_coalescing (T : Type) (truthy : T → Bool) (now : Int)
    (d : T) (c : StateCache T) (n : Nat) (hp : 0 ≤ c.pendingUpdates) :
    (∀ v, getIfNotExpired truthy now c = some v ->
      burstTurn truthy now d c n = (c, List.replicate n (.returned v))) ∧
    (getIfNotExpired truthy now c = none → 0 < c.pendingUpdates ->
      burstTurn truthy now d c n =
        (c, List.replicate n (.returned (jsOr truthy c.state d)))) ∧
    (getIfNotExpired truthy now c = none → c.pendingUpdates = 0 ->
      burstTurn truthy now d c (n + 1) =
        ({ c with pendingUpdates := c.pendingUpdates + 1 },
          .startSupplier :: List.replicate n (.returned (jsOr truthy c.state d)))) ∧
    countStart (burstTurn truthy now d c n).2 ≤ 1 := by
  refine ⟨fun v h => burst_fresh h n, fun h hpos => burst_queued h hpos n,
    fun h h0 => burst_first h h0 n, ?_⟩
  rcases hfr : getIfNotExpired truthy now c with _ | v
  · rcases Int.lt_or_le 0 c.pendingUpdates with hpos | hle
    · rw [burst_queued hfr hpos n]
      simp [countStart_replicate]
    · have h0 : c.pendingUpdates = 0 := le_antisymm hle hp
      cases n with
      | zero => simp [burstTurn, countStart]
      | succ k =>
        rw [burst_first hfr h0 k]
        simp [countStart, countStart_replicate, List.countP_cons]
  · rw [burst_fresh hfr n]
    simp [countStart_replicate]

/-- Witness for Claim C1: a burst of three calls on a slot holding a fresh
value returns that value to every caller without starting the supplier. -/
theorem claimC1_burst_coalescing_witness :
    burstTurn (fun b => b) 10000 true (⟨some true, 9999, 0, 5000⟩ : StateCache Bool) 3 =
      ((⟨some true, 9999, 0, 5000⟩ : StateCache Bool),
        List.replicate 3 (.returned true)) :=
  (claimC1_burst_coalescing Bool (fun b => b) 10000 true
    ⟨some true, 9999, 0, 5000⟩ 3 (by decide)).1 true (by decide)

/-- Counterexample for Claim C1 as stated: on a slot storing the (falsy)
value `false` with an expired lease, the second caller of a same-turn burst
receives the fallback `true`, not the currently stored value `false`, even
though a stored value is present. -/
theorem claimC1_counterexample :
    burstTurn (fun b => b) 10000 true (⟨some false, 0, 0, 5000⟩ : StateCache Bool) 2 =
      ((⟨some false, 0, 1, 5000⟩ : StateCache Bool),
        [Turn.startSupplier, Turn.returned true]) ∧
    (⟨some false, 0, 0, 5000⟩ : StateCache Bool).state = some false ∧
    (true : Bool) ≠ false := by
  refine ⟨by decide, rfl, by decide⟩

/-- Claim C2 (amended): `getIfNotExpired` returns the stored value exactly
when the lease is fresh (`now - lastCheck < ttl`) and the value is truthy; a
fresh but falsy stored value (such as `false`) reads as empty.  The
operation is a pure function of the slot: it performs no I/O and leaves the
slot unchanged. -/
theorem claimC2_getIfNotExpired (T : Type) (truthy : T → Bool) (now : Int)
    (c : StateCache T) (v : T) :
    getIfNotExpired truthy now c = some v ↔
      now - c.lastCheck < c.cacheTime ∧ c.state = some v ∧ truthy v = true := by
  constructor
  · intro h
    unfold getIfNotExpired at h
    by_cases hlt : now - c.lastCheck < c.cacheTime
    · rw [if_pos hlt] at h
      rcases hs : c.state with _ | w
      · rw [hs] at h
        exact Option.noConfusion (show (none : Option T) = some v from h)
      · rw [hs] at h
        have h2 : (if truthy w = true then some w else none) = some v := h
        by_cases ht : truthy w = true
        · rw [if_pos ht] at h2
          injection h2 with hwv
          subst hwv
          exact ⟨hlt, rfl, ht⟩
        · rw [if_neg ht] at h2
          exact Option.noConfusion h2
    · rw [if_neg hlt] at h
      exact Option.noConfusion h
  · rintro ⟨hlt, hs, ht⟩
    unfold getIfNotExpired
    rw [if_pos hlt, hs]
    show (if truthy v = true then some v else none) = some v
    rw [if_pos ht]

/-- Counterexample for Claim C2 as stated: a slot whose stored value is the
boolean `false` and whose lease is fresh (`now - lastCheck = 0 < 5000`)
still reads as empty. -/
theorem claimC2_counterexample :
    getIfNotExpired (fun b => b) 1000 (⟨some false, 1000, 0, 5000⟩ : StateCache Bool) = none ∧
    (1000 : Int) - 1000 < 5000 := by
  refine ⟨by decide, by decide⟩

/-- Claim C3 (confirmed): every exit of `getOrUpdate` balances the counter —
a short-circuit return leaves `pendingUpdates` at its entry value, reaching
the supplier leaves it raised by exactly one, and the completion phase
(success or failure) lowers whatever value it observes by exactly one; and
any interleaving of such lock/release-balanced executions starting from an
idle slot keeps the counter equal to the number of in-flight executions, so
it never becomes negative. -/
theorem claimC3_counter_balance :
    (∀ (T : Type) (truthy : T → Bool) (now : Int) (d : T) (c : StateCache T) (v : T),
      (getOrUpdateTurn truthy now c d).2 = .returned v ->
      (getOrUpdateTurn truthy now c d).1.pendingUpdates = c.pendingUpdates) ∧
    (∀ (T : Type) (truthy : T → Bool) (now : Int) (d : T) (c : StateCache T),
      (getOrUpdateTurn truthy now c d).2 = .startSupplier ->
      (getOrUpdateTurn truthy now c d).1.pendingUpdates = c.pendingUpdates + 1) ∧
    (∀ (T : Type) (now : Int) (c : StateCache T) (res : Except Unit T),
      (getOrUpdateFinish now c res).1.pendingUpdates = c.pendingUpdates - 1) ∧
    (∀ s : Int × Nat, Relation.ReflTransGen CounterStep (0, 0) s → 0 ≤ s.1) := by
  refine ⟨?_, ?_, ?_, ?_⟩
  · intro T truthy now d c v h
    rcases hfr : getIfNotExpired truthy now c with _ | w
    · rcases Int.lt_or_le 0 c.pendingUpdates with hpos | hle
      · rw [turn_queued hfr hpos]
      · rw [turn_first hfr (by omega)] at h
        cases h
    · rw [turn_fresh hfr]
  · intro T truthy now d c h
    rcases hfr : getIfNotExpired truthy now c with _ | w
    · rcases Int.lt_or_le 0 c.pendingUpdates with hpos | hle
      · rw [turn_queued hfr hpos] at h
        cases h
      · rw [turn_first hfr (by omega)]
    · rw [turn_fresh hfr] at h
      cases h
  · intro T now c res
    cases res with
    | ok v => rfl
    | error e => rfl
  · intro s h
    have := counter_invariant s h
    omega

/-- Witness for Claim C3: concrete instances of each balance law and a
two-step lock/release run ending with a non-negative counter. -/
theorem claimC3_counter_balance_witness :
    (getOrUpdateTurn (fun b => b) 10 (⟨some true, 9, 0, 5000⟩ : StateCache Bool) false).1.pendingUpdates = 0 ∧
    (getOrUpdateTurn (fun b => b) 10000 (⟨none, 0, 0, 5000⟩ : StateCache Bool) false).1.pendingUpdates = 0 + 1 ∧
    (getOrUpdateFinish 5 (⟨none, 0, 1, 5000⟩ : StateCache Bool) (.ok true)).1.pendingUpdates = 1 - 1 ∧
    (0 : Int) ≤ ((0, 0) : Int × Nat).1 :=
  ⟨claimC3_counter_balance.1 Bool (fun b => b) 10 false ⟨some true, 9, 0, 5000⟩ true (by decide),
    claimC3_counter_balance.2.1 Bool (fun b => b) 10000 false ⟨none, 0, 0, 5000⟩ (by decide),
    claimC3_counter_balance.2.2.1 Bool 5 ⟨none, 0, 1, 5000⟩ (.ok true),
    claimC3_counter_balance.2.2.2 (0, 0)
      (Relation.ReflTransGen.tail
        (Relation.ReflTransGen.tail Relation.ReflTransGen.refl (CounterStep.lock 0 0))
        (CounterStep.unlock 1 0))⟩

/-! ## Claim C8: dependant notification -/

/-- Claim C8 (confirmed): one delayed notification pulse invokes
`acknowledge` once per registered dependant, in registration order, whatever
each invocation's outcome is: the loop never awaits the returned promises,
and the `async` overrides cannot throw synchronously, so a rejection in one
dependant does not prevent the later dependants from being notified. -/
theorem claimC8_notify_all_dependants (D : Type) [DecidableEq D]
    (deps : List D) (ack : D → Except Unit Unit) (d : D) :
    notifyLoop deps ack = deps.map (fun x => (x, ack x)) ∧
    (notifyLoop deps ack).map Prod.fst = deps ∧
    ((notifyLoop deps ack).map Prod.fst).count d = deps.count d := by
  have hchar : ∀ l : List D, notifyLoop l ack = l.map (fun x => (x, ack x)) := by
    intro l
    induction l with
    | nil => rfl
    | cons x xs ih => simp [notifyLoop, ih]
  have hmap : (notifyLoop deps ack).map Prod.fst = deps := by
    rw [hchar]
    rw [List.map_map]
    exact List.map_id deps
  exact ⟨hchar deps, hmap, by rw [hmap]⟩

/-! ## Claim C9: HttpClient response classification -/

/-- Claim C9 (confirmed): a transport error rejects the call; a non-empty
body containing a brace or bracket is parsed, so a parse failure rejects;
an absent, empty or non-JSON-shaped body resolves with the empty value. -/
theorem claimC9_response_classification (T : Type)
    (parse : String → Except Unit T) (emptyVal : T)
    (resp : Except Unit (Option String)) :
    (∀ e, resp = .error e → httpCall parse emptyVal resp = .error e) ∧
    (∀ body, resp = .ok (some body) → body ≠ "" → looksLikeJson body = true →
      httpCall parse emptyVal resp = parse body) ∧
    (resp = .ok none → httpCall parse emptyVal resp = .ok emptyVal) ∧
    (∀ body, resp = .ok (some body) → body = "" ∨ looksLikeJson body = false →
      httpCall parse emptyVal resp = .ok emptyVal) := by
  refine ⟨?_, ?_, ?_, ?_⟩
  · rintro e rfl
    rfl
  · rintro body rfl hne hjson
    unfold httpCall
    show (if body ≠ "" ∧ looksLikeJson body = true then parse body else Except.ok emptyVal) =
      parse body
    rw [if_pos ⟨hne, hjson⟩]
  · rintro rfl
    rfl
  · rintro body rfl hbad
    unfold httpCall
    show (if body ≠ "" ∧ looksLikeJson body = true then parse body else Except.ok emptyVal) =
      Except.ok emptyVal
    rw [if_neg]
    rintro ⟨hne, hjson⟩
    rcases hbad with rfl | hfalse
    · exact hne rfl
    · rw [hfalse] at hjson
      cases hjson

/-- Witness for Claim C9: all four classifications at concrete inputs, with
a parser accepting exactly the two-character body `\x7b\x7d`. -/
theorem claimC9_response_classification_witness :
    httpCall (fun st => if st = "\x7b\x7d" then Except.ok (1 : Int) else .error ()) 0
      (.error ()) = .error () ∧
    httpCall (fun st => if st = "\x7b\x7d" then Except.ok (1 : Int) else .error ()) 0
      (.ok (some "\x7b\x7d")) = .ok 1 ∧
    httpCall (fun st => if st = "\x7b\x7d" then Except.ok (1 : Int) else .error ()) 0
      (.ok none) = .ok 0 ∧
    httpCall (fun st => if st = "\x7b\x7d" then Except.ok (1 : Int) else .error ()) 0
      (.ok (some "plain")) = .ok 0 :=
  ⟨(claimC9_response_classification Int _ 0 (.error ())).1 () rfl,
    ((claimC9_response_classification Int _ 0 (.ok (some "\x7b\x7d"))).2.1 "\x7b\x7d" rfl
      (by decide) (by decide)).trans (by simp),
    (claimC9_response_classification Int _ 0 (.ok none)).2.2.1 rfl,
    (claimC9_response_classification Int _ 0 (.ok (some "plain"))).2.2.2 "plain" rfl
      (Or.inr (by decide))⟩

/-! ## Claims C4 and C5: feature set/get behaviour -/

theorem release_update_lock {T : Type} (now : Int) (v : T) (c : StateCache T) :
    release (update now v { c with pendingUpdates := c.pendingUpdates + 1 }) =
      update now v c := by
  cases c with
  | mk s l p t =>
    simp only [release, update]
    congr 1
    omega

theorem run_fresh {T : Type} {truthy : T → Bool} {now : Int} {c : StateCache T}
    {d v : T} (h : getIfNotExpired truthy now c = some v) (sup : Except Unit T) :
    getOrUpdateRun truthy now c d sup = (c, .ok v, false) := by
  unfold getOrUpdateRun
  rw [turn_fresh h]

theorem run_queued {T : Type} {truthy : T → Bool} {now : Int} {c : StateCache T}
    {d : T} (h : getIfNotExpired truthy now c = none) (hp : 0 < c.pendingUpdates)
    (sup : Except Unit T) :
    getOrUpdateRun truthy now c d sup = (c, .ok (jsOr truthy c.state d), false) := by
  unfold getOrUpdateRun
  rw [turn_queued h hp]

theorem run_first_ok {T : Type} {truthy : T → Bool} {now : Int} {c : StateCache T}
    {d : T} (h : getIfNotExpired truthy now c = none) (hp : ¬0 < c.pendingUpdates)
    (v : T) :
    getOrUpdateRun truthy now c d (.ok v) = (update now v c, .ok v, true) := by
  unfold getOrUpdateRun
  rw [turn_first h hp]
  dsimp only [getOrUpdateFinish]
  rw [release_update_lock]

theorem run_first_error {T : Type} {truthy : T → Bool} {now : Int} {c : StateCache T}
    {d : T} (h : getIfNotExpired truthy now c = none) (hp : ¬0 < c.pendingUpdates)
    (e : Unit) :
    getOrUpdateRun truthy now c d (.error e) = (c, .error e, true) := by
  unfold getOrUpdateRun
  rw [turn_first h hp]
  dsimp only [getOrUpdateFinish]
  rw [release_lock]

/-- A `getOrUpdate` run whose supplier resolves never rejects. -/
theorem run_ok_of_ok {T : Type} (truthy : T → Bool) (now : Int) (c : StateCache T)
    (d : T) (v : T) :
    isOkE (getOrUpdateRun truthy now c d (.ok v)).2.1 = true := by
  rcases hfr : getIfNotExpired truthy now c with _ | w
  · by_cases hp : 0 < c.pendingUpdates
    · rw [run_queued hfr hp]
      rfl
    · rw [run_first_ok hfr hp]
      rfl
  · rw [run_fresh hfr]
    rfl

/-- Claim C4 (amended): in the current revision, when the style fetch fails
the supplier resolves the off-style, so `getCurrentStyle` resolves to the
default off-style and the cache is overwritten with it via `update` — the
previously cached style is discarded rather than having its lease renewed
with `bumpExpiration` (which the earlier revision of the service used). -/
theorem claimC4_style_fetch_failure (now : Int) (dev : Device)
    (st : StateCache AmbilightCurrentStyle)
    (hdev : dev.ambiConfig = .error ())
    (hfr : getIfNotExpired truthyObj now st = none)
    (hp : st.pendingUpdates = 0) :
    ambilightGetCurrentStyle now dev st =
      (update now ambilightOffStyle st, .ok ambilightOffStyle,
        [.get AMBILIGHT_CONFIG_API]) := by
  have hsup : ambilightStyleSupplier dev = ambilightOffStyle := by
    unfold ambilightStyleSupplier
    rw [hdev]
  unfold ambilightGetCurrentStyle
  rw [hsup, run_first_ok hfr (by omega) ambilightOffStyle]
  rfl

/-- Witness for Claim C4: a slot caching a non-off style with an expired
lease, against an unreachable device. -/
theorem claimC4_style_fetch_failure_witness :
    ambilightGetCurrentStyle 1000 Device.unreachable
        (⟨some loungeExample, 0, 0, 100⟩ : StateCache AmbilightCurrentStyle) =
      (update 1000 ambilightOffStyle ⟨some loungeExample, 0, 0, 100⟩,
        .ok ambilightOffStyle, [.get AMBILIGHT_CONFIG_API]) :=
  claimC4_style_fetch_failure 1000 Device.unreachable _ rfl (by decide) rfl

/-- Counterexample for Claim C4 as stated: with a non-off style cached, a
failing fetch resolves the default off-style — not the last cached style —
and replaces the cached value instead of renewing its lease. -/
theorem claimC4_counterexample :
    (ambilightGetCurrentStyle 1000 Device.unreachable
        (⟨some loungeExample, 0, 0, 100⟩ : StateCache AmbilightCurrentStyle)).2.1 =
      .ok ambilightOffStyle ∧
    ambilightOffStyle ≠ loungeExample ∧
    (ambilightGetCurrentStyle 1000 Device.unreachable
        (⟨some loungeExample, 0, 0, 100⟩ : StateCache AmbilightCurrentStyle)).1.state =
      some ambilightOffStyle :=
  ⟨rfl, by decide, rfl⟩

theorem tvGetOn_ok (now : Int) (dev : Device) (c : StateCache Bool) :
    isOkE (tvGetOn now dev c).2.1 = true := by
  unfold tvGetOn
  rcases e : getOrUpdateRun truthyBool now c false (.ok (tvGetOnSupplier dev)) with ⟨c2, r, f⟩
  have h := run_ok_of_ok truthyBool now c false (tvGetOnSupplier dev)
  rw [e] at h
  exact h

theorem screenGetOn_ok (now : Int) (dev : Device) (c : StateCache Bool) :
    isOkE (screenGetOn now dev c).2.1 = true := by
  unfold screenGetOn
  rcases e : getOrUpdateRun truthyBool now c false (.ok (screenGetOnSupplier dev)) with ⟨c2, r, f⟩
  have h := run_ok_of_ok truthyBool now c false (screenGetOnSupplier dev)
  rw [e] at h
  exact h

theorem ambilightGetCurrentStyle_ok (now : Int) (dev : Device)
    (st : StateCache AmbilightCurrentStyle) :
    isOkE (ambilightGetCurrentStyle now dev st).2.1 = true := by
  unfold ambilightGetCurrentStyle
  rcases e : getOrUpdateRun truthyObj now st ambilightOffStyle
      (.ok (ambilightStyleSupplier dev)) with ⟨c2, r, f⟩
  have h := run_ok_of_ok truthyObj now st ambilightOffStyle (ambilightStyleSupplier dev)
  rw [e] at h
  exact h

theorem ambilightGetOnPower_ok (now : Int) (dev : Device) (b : Bool)
    (a2 : AmbilightState) (e1 : List Effect) :
    isOkE (ambilightGetOnPower now dev b a2 e1).2.1 = true := by
  unfold ambilightGetOnPower
  rcases e : getOrUpdateRun truthyBool now a2.onState false
      (.ok (ambilightPowerSupplier dev b)) with ⟨c2, r, f⟩
  have h := run_ok_of_ok truthyBool now a2.onState false (ambilightPowerSupplier dev b)
  rw [e] at h
  exact h

theorem ambilightGetOn_ok (now : Int) (dev : Device) (a : AmbilightState) :
    isOkE (ambilightGetOn now dev a).2.1 = true := by
  unfold ambilightGetOn
  rcases h1 : ambilightGetCurrentStyle now dev a.style with ⟨st1, r1, e1⟩
  have hok := ambilightGetCurrentStyle_ok now dev a.style
  rw [h1] at hok
  rcases r1 with e | vs
  · exact absurd hok (by simp [isOkE])
  · exact ambilightGetOnPower_ok now dev _ _ e1

theorem tvGetOn_no_post (now : Int) (dev : Device) (c : StateCache Bool) :
    ((tvGetOn now dev c).2.2).countP isPost = 0 := by
  unfold tvGetOn
  rcases e : getOrUpdateRun truthyBool now c false (.ok (tvGetOnSupplier dev)) with ⟨c2, r, f⟩
  cases f
  · rfl
  · rfl

theorem screenGetOn_no_post (now : Int) (dev : Device) (c : StateCache Bool) :
    ((screenGetOn now dev c).2.2).countP isPost = 0 := by
  unfold screenGetOn
  rcases e : getOrUpdateRun truthyBool now c false (.ok (screenGetOnSupplier dev)) with ⟨c2, r, f⟩
  cases f
  · rfl
  · rfl

theorem ambilightSetOnWrite_off_posts (now : Int) (cfg : AmbilightConfig)
    (wol : WolConfig) (dev : Device) (a2 : AmbilightState) (isOn : Bool)
    (currentStyle : AmbilightCurrentStyle) (e12 : List Effect) :
    0 < ((ambilightSetOnWrite now cfg wol dev a2 isOn currentStyle false e12).2.2).countP isPost := by
  unfold ambilightSetOnWrite
  dsimp only
  rw [if_neg (by simp)]
  rcases dp : dev.postAmbiPower with e | u
  · simp [List.countP_append, isPost]
  · dsimp only [ambilightSetCurrentStyle]
    rcases dpc : dev.postAmbiConfig with e | u2
    · simp [List.countP_append, isPost]
    · simp [List.countP_append, isPost]

/-- Claim C5 (amended): for the Power and Screen features, a set call with
the value the feature currently reports performs no device write (no POST;
a GET read may still occur when the cached value cannot be served), while
the Ambient-light `setOn` has no equality short-circuit: turning it off
always issues at least one device write, whatever the current state. -/
theorem claimC5_idempotent_set :
    (∀ (now : Int) (wol : WolConfig) (dev : Device) (c c1 : StateCache Bool)
        (v : Bool) (es : List Effect),
      tvGetOn now dev c = (c1, .ok v, es) →
      ((tvSetOn now wol dev c v).2.2).countP isPost = 0) ∧
    (∀ (now : Int) (dev : Device) (c c1 : StateCache Bool) (v : Bool)
        (es : List Effect),
      screenGetOn now dev c = (c1, .ok v, es) →
      ((screenSetOn now dev c v).2.2).countP isPost = 0) ∧
    (∀ (now : Int) (cfg : AmbilightConfig) (wol : WolConfig) (dev : Device)
        (a : AmbilightState),
      0 < ((ambilightSetOn now cfg wol dev a false).2.2).countP isPost) := by
  refine ⟨?_, ?_, ?_⟩
  · intro now wol dev c c1 v es h
    have hes : es.countP isPost = 0 := by
      have h0 := tvGetOn_no_post now dev c
      rw [h] at h0
      exact h0
    unfold tvSetOn
    rw [h]
    cases v
    · exact hes
    · exact hes
  · intro now dev c c1 v es h
    have hes : es.countP isPost = 0 := by
      have h0 := screenGetOn_no_post now dev c
      rw [h] at h0
      exact h0
    unfold screenSetOn
    rw [h]
    cases v
    · exact hes
    · exact hes
  · intro now cfg wol dev a
    unfold ambilightSetOn
    rcases h1 : ambilightGetOn now dev a with ⟨a1, r1, e1⟩
    have hok1 := ambilightGetOn_ok now dev a
    rw [h1] at hok1
    rcases r1 with e | vOn
    · exact absurd hok1 (by simp [isOkE])
    · dsimp only
      rcases h2 : ambilightGetCurrentStyle now dev a1.style with ⟨st2, r2, e2⟩
      have hok2 := ambilightGetCurrentStyle_ok now dev a1.style
      rw [h2] at hok2
      rcases r2 with e | vS
      · exact absurd hok2 (by simp [isOkE])
      · exact ambilightSetOnWrite_off_posts now cfg wol dev _ vOn vS (e1 ++ e2)

/-- A reachable, powered-on device: every endpoint reports `On`, the style
endpoint reports a non-off style, and every write succeeds. -/
def devOnExample : Device :=
  Device.healthy (some "On") (some "On") (some "On") defaultVolume loungeExample
    DEFAULT_APP none

/-- An Ambilight service state whose caches freshly report "on" with a
non-off style, at timestamp 1000. -/
def ambOnExample : AmbilightState :=
  { onState := ⟨some true, 1000, 0, 5000⟩, style := ⟨some loungeExample, 1000, 0, 100⟩,
    isTVOn := true, isScreenOn := true, lastStyleOn := loungeExample,
    lastStyleOff := ambilightOffStyle, color := ⟨0, 0, 255⟩, pendingColorUpdates := 0 }

/-- Counterexample for Claim C5 as stated: the Ambient-light feature reports
"on", yet `setOn(true)` still issues two device writes (the style write and
the power write) — not zero HTTP calls. -/
theorem claimC5_counterexample :
    (ambilightGetOn 1000 devOnExample ambOnExample).2.1 = .ok true ∧
    ((ambilightSetOn 1000 {} {} devOnExample ambOnExample true).2.2).countP isPost = 2 ∧
    (2 : Nat) ≠ 0 :=
  ⟨rfl, rfl, by decide⟩

/-- Witness for Claim C5: a Power set and a Screen set with the currently
reported value issue no POST, while the Ambient-light off-write posts. -/
theorem claimC5_idempotent_set_witness :
    ((tvSetOn 1000 {} devOnExample (⟨some true, 1000, 0, 5000⟩ : StateCache Bool) true).2.2).countP
        isPost = 0 ∧
    ((screenSetOn 1000 devOnExample (⟨some true, 1000, 0, 5000⟩ : StateCache Bool) true).2.2).countP
        isPost = 0 ∧
    0 < ((ambilightSetOn 1000 {} {} devOnExample ambOnExample false).2.2).countP isPost :=
  ⟨claimC5_idempotent_set.1 1000 {} devOnExample ⟨some true, 1000, 0, 5000⟩
      ⟨some true, 1000, 0, 5000⟩ true [] rfl,
    claimC5_idempotent_set.2.1 1000 devOnExample ⟨some true, 1000, 0, 5000⟩
      ⟨some true, 1000, 0, 5000⟩ true [] rfl,
    claimC5_idempotent_set.2.2 1000 {} {} devOnExample ambOnExample⟩

/-! ## Claim C7: read operations and gateway failures -/

theorem speakerGetMute_ok (now : Int) (dev : Device) (c : StateCache VolumeState)
    (hp : 0 ≤ c.pendingUpdates) :
    isOkE (speakerGetMute now dev c).2.1 = true := by
  unfold speakerGetMute
  rcases e : getOrUpdateTurn truthyObj now c defaultVolume with ⟨c1, t⟩
  cases t with
  | returned v => rfl
  | startSupplier =>
    obtain ⟨hfr, hple, hc1⟩ := turn_inv (by rw [e])
    rw [e] at hc1
    have hc2 : c1 = { c with pendingUpdates := c.pendingUpdates + 1 } := hc1
    have hfr1 : getIfNotExpired truthyObj now c1 = none := by
      rw [hc2, getIfNotExpired_pending]
      exact hfr
    have hp1 : 0 < c1.pendingUpdates := by
      rw [hc2]
      show 0 < c.pendingUpdates + 1
      omega
    have hvs : speakerGetVolumeState now dev c1 =
        (c1, .ok (jsOr truthyObj c1.state defaultVolume), [.updateChar]) := by
      unfold speakerGetVolumeState
      rw [run_queued hfr1 hp1]
      rfl
    dsimp only
    rw [hvs]
    rfl

theorem speakerGetVolume_ok (now : Int) (dev : Device) (c : StateCache VolumeState)
    (hp : 0 ≤ c.pendingUpdates) :
    isOkE (speakerGetVolume now dev c).2.1 = true := by
  unfold speakerGetVolume
  rcases e : getOrUpdateTurn truthyObj now c defaultVolume with ⟨c1, t⟩
  cases t with
  | returned v => rfl
  | startSupplier =>
    obtain ⟨hfr, hple, hc1⟩ := turn_inv (by rw [e])
    rw [e] at hc1
    have hc2 : c1 = { c with pendingUpdates := c.pendingUpdates + 1 } := hc1
    have hfr1 : getIfNotExpired truthyObj now c1 = none := by
      rw [hc2, getIfNotExpired_pending]
      exact hfr
    have hp1 : 0 < c1.pendingUpdates := by
      rw [hc2]
      show 0 < c.pendingUpdates + 1
      omega
    have hvs : speakerGetVolumeState now dev c1 =
        (c1, .ok (jsOr truthyObj c1.state defaultVolume), [.updateChar]) := by
      unfold speakerGetVolumeState
      rw [run_queued hfr1 hp1]
      rfl
    dsimp only
    rw [hvs]
    rfl

/-- Claim C7 (amended): the power, screen and Ambient-light reads catch
gateway failures inside their suppliers and resolve a fallback, and the
speaker's `getVolume`/`getMute` never reject — their nested `getOrUpdate` on
the same slot never performs the device fetch itself — so none of these
reads surfaces an error; the exception is `getActiveIdentifier`, whose
`activities/current` fetch failure propagates to the caller. -/
theorem claimC7_reads_never_reject :
    (∀ (now : Int) (dev : Device) (c : StateCache Bool),
      isOkE (tvGetOn now dev c).2.1 = true) ∧
    (∀ (now : Int) (dev : Device) (c : StateCache Bool),
      isOkE (screenGetOn now dev c).2.1 = true) ∧
    (∀ (now : Int) (dev : Device) (st : StateCache AmbilightCurrentStyle),
      isOkE (ambilightGetCurrentStyle now dev st).2.1 = true) ∧
    (∀ (now : Int) (dev : Device) (a : AmbilightState),
      isOkE (ambilightGetOn now dev a).2.1 = true) ∧
    (∀ (now : Int) (dev : Device) (c : StateCache VolumeState), 0 ≤ c.pendingUpdates →
      isOkE (speakerGetMute now dev c).2.1 = true) ∧
    (∀ (now : Int) (dev : Device) (c : StateCache VolumeState), 0 ≤ c.pendingUpdates →
      isOkE (speakerGetVolume now dev c).2.1 = true) :=
  ⟨tvGetOn_ok, screenGetOn_ok, ambilightGetCurrentStyle_ok, ambilightGetOn_ok,
    speakerGetMute_ok, speakerGetVolume_ok⟩

/-- Witness for Claim C7: against an unreachable device, the speaker reads
and the power read still resolve. -/
theorem claimC7_reads_never_reject_witness :
    isOkE (speakerGetMute 1000 Device.unreachable (StateCache.mk0 VolumeState)).2.1 = true ∧
    isOkE (speakerGetVolume 1000 Device.unreachable (StateCache.mk0 VolumeState)).2.1 = true ∧
    isOkE (tvGetOn 1000 Device.unreachable (StateCache.mk0 Bool)).2.1 = true :=
  ⟨claimC7_reads_never_reject.2.2.2.2.1 1000 Device.unreachable (StateCache.mk0 VolumeState)
      (by decide),
    claimC7_reads_never_reject.2.2.2.2.2 1000 Device.unreachable (StateCache.mk0 VolumeState)
      (by decide),
    claimC7_reads_never_reject.1 1000 Device.unreachable (StateCache.mk0 Bool)⟩

/-- Counterexample for Claim C7 as stated: with inputs configured and the
device unreachable, `getActiveIdentifier` — a read operation — rejects with
the gateway error from the `activities/current` fetch instead of resolving
a fallback. -/
theorem claimC7_counterexample :
    (tvGetActiveIdentifier 946771300000 Device.unreachable (some [{ name := "HDMI" }])
        (StateCache.mk0 Bool) (StateCache.mk0 TVApp)).2.1 = .error () := rfl

/-! ## Claim C10: Ambilight acknowledge shortcuts -/

/-- Claim C10 (confirmed): acknowledging a TV-power publisher whose `getOn`
resolved `false` pins the Ambilight power cache to `false` and the style
cache to the off-style and performs no device call; acknowledging a Screen
publisher that reports off while the remembered TV flag is off returns
immediately, leaving the caches untouched and contacting no device
endpoint. -/
theorem claimC10_acknowledge_shortcuts :
    (∀ (now : Int) (dev : Device) (a : AmbilightState),
      (ambilightAcknowledge now dev (.tvService false) a).1.onState.state = some false ∧
      (ambilightAcknowledge now dev (.tvService false) a).1.onState.lastCheck = now ∧
      (ambilightAcknowledge now dev (.tvService false) a).1.style.state =
        some ambilightOffStyle ∧
      ((ambilightAcknowledge now dev (.tvService false) a).2).countP isDeviceCall = 0) ∧
    (∀ (now : Int) (dev : Device) (a : AmbilightState), a.isTVOn = false →
      ambilightAcknowledge now dev (.screenService false) a =
        ({ a with isScreenOn := false }, [.publisherRead])) := by
  constructor
  · intro now dev a
    exact ⟨rfl, rfl, rfl, rfl⟩
  · intro now dev a h
    unfold ambilightAcknowledge
    simp [h]

/-- Witness for Claim C10: both shortcuts at the initial service state. -/
theorem claimC10_acknowledge_shortcuts_witness :
    ambilightAcknowledge 1000 Device.unreachable (.screenService false)
        AmbilightState.initial =
      ({ AmbilightState.initial with isScreenOn := false }, [.publisherRead]) ∧
    (ambilightAcknowledge 1000 Device.unreachable (.tvService false)
        AmbilightState.initial).1.onState.state = some false :=
  ⟨claimC10_acknowledge_shortcuts.2 1000 Device.unreachable AmbilightState.initial rfl,
    (claimC10_acknowledge_shortcuts.1 1000 Device.unreachable AmbilightState.initial).1⟩

/-! ## Claim C6: the color debounce -/

/-- Claim C6 (amended): a same-turn burst of five hue-set calls on the
freshly constructed service produces three flush commits — the calls whose
captured counter value (3, 4 and 5) exceeds the threshold 2 — and each
commit writes the custom style built from the final (fifth) hue and then
runs `setOn`, which re-writes that same remembered style and the power
flag: nine device writes in all, every style write carrying the final hue.
A burst of only two calls writes nothing and leaves the counter at 2, and
the next periodic `flushColorSetting` tick then commits the last hue. -/
theorem claimC6_debounce_burst (q1 q2 q3 q4 q5 : ℚ) :
    ((hueBurst 0 {} {} devOnExample AmbilightState.initial
        [q1, q2, q3, q4, q5]).2).countP isPost = 9 ∧
    ((hueBurst 0 {} {} devOnExample AmbilightState.initial
        [q1, q2, q3, q4, q5]).2).filter isConfigPost =
      List.replicate 6 (.post AMBILIGHT_CONFIG_API (.ambiConfigBody
        (createCustomColor ⟨jsRound (q5 / 360 * 255), 0, 255⟩))) ∧
    ((hueBurst 0 {} {} devOnExample AmbilightState.initial [q1, q2]).2).countP
        isPost = 0 ∧
    (hueBurst 0 {} {} devOnExample AmbilightState.initial
        [q1, q2]).1.pendingColorUpdates = 2 ∧
    ((flushColorSetting 0 {} {} devOnExample
        (hueBurst 0 {} {} devOnExample AmbilightState.initial
          [q1, q2]).1).2).countP isPost = 3 ∧
    ((flushColorSetting 0 {} {} devOnExample
        (hueBurst 0 {} {} devOnExample AmbilightState.initial
          [q1, q2]).1).2).filter isConfigPost =
      List.replicate 2 (.post AMBILIGHT_CONFIG_API (.ambiConfigBody
        (createCustomColor ⟨jsRound (q2 / 360 * 255), 0, 255⟩))) := by
  refine ⟨?_, ?_, ?_, ?_, ?_, ?_⟩ <;>
    simp +decide [hueBurst, hueBurstArrive, setHueArrive, hueBurstWakes,
      setCurrentColorWake, flushColorSetting, ambilightSetCurrentStyle,
      ambilightSetOn, ambilightGetOn, ambilightGetCurrentStyle,
      ambilightGetOnPower, ambilightStyleSupplier, ambilightPowerSupplier,
      ambilightSetOnWrite, getOrUpdateRun, getOrUpdateTurn, getOrUpdateFinish,
      getIfNotExpired, lockForUpdate, release, update, jsOr, truthyObj,
      truthyBool, updateLastStyle, getLastStyle, createCustomColor,
      wakeAndWarmUp, wake, AmbilightState.initial, devOnExample,
      Device.healthy, StateCache.mk0, expiredSentinel, ambilightOffStyle,
      loungeExample, AMBILIGHT_OFF_STYLE_NAME, AMBILIGHT_LOUNGE_LIGHT,
      AMBILIGHT_CONFIG_API, AMBILIGHT_POWER_API, isPost, isConfigPost,
      List.countP_cons, List.replicate]

/-- Counterexample for Claim C6 as stated: a rapid burst of five hue-set
calls issues nine device writes (three committing flushes, each writing the
style once itself and twice more through its trailing `setOn`), not exactly
one. -/
theorem claimC6_counterexample :
    ((hueBurst 1000 {} {} devOnExample AmbilightState.initial
        [10, 20, 30, 40, 50]).2).countP isPost = 9 ∧ (9 : Nat) ≠ 1 :=
  ⟨by decide, by decide⟩

end PhilipsTV
